import Mathlib

/-!
Verification of the `detach` virtual-terminal renderer (src/src/main.rs).

The program attaches a child process to a pseudo-terminal, feeds its output
bytes to a vt100 state machine, and re-renders the live portion of the
virtual screen into a bottom-anchored region of the host terminal.

This file shallowly embeds the pure parts of the source:
  - `Color` / `Cell` mirror the vt100 cell data consumed by the encoder;
  - `color_to_ansi_code` and `cell_to_ansi` mirror the ANSI encoder
    (src lines 17-79);
  - `Grid`, `is_row_non_empty`, `used_height_scan` / `get_used_height`
    mirror the screen queries (src lines 107-134);
  - `render` mirrors `VirtualTerminal::render` (src lines 136-194) with the
    opaque vt100 `process` step abstracted as a grid transformer, host
    terminal effects reified as a `TermCmd` list, and one read result per
    call;
  - `mainLoopStep`, `mainCommand` mirror the driver loop and spawn call in
    `main` (src lines 197-214).
Machine integers (u16 rows/cols, u8 color components) are modelled as `Nat`;
none of the verified properties exercise wrap-around. Rust's
`saturating_sub` is `Nat` truncated subtraction.
-/

/-- Colors as exposed by `vt100::Color`: default, indexed (0-255), or
true-color RGB. Components are `Nat`; the source's `u8` bounds are never
needed by the encoder. -/
inductive Color where
  | default
  | idx (i : Nat)
  | rgb (r g b : Nat)
deriving DecidableEq, Repr

/-- A styled screen cell as consumed by the encoder and renderer: the five
boolean attribute flags, foreground and background colors, and the glyph
contents string (empty means blank). -/
structure Cell where
  bold : Bool
  dim : Bool
  italic : Bool
  underline : Bool
  inverse : Bool
  fgcolor : Color
  bgcolor : Color
  contents : String
deriving DecidableEq, Repr

/-- `color_to_ansi_code` (src lines 55-79): default maps to 39/49, indexed
to `38;5;i` / `48;5;i`, RGB to `38;2;r;g;b` / `48;2;r;g;b`, foreground
versus background selected by the boolean. -/
def color_to_ansi_code (color : Color) (fg : Bool) : String :=
  match color with
  | Color.default => if fg then "39" else "49"
  | Color.idx i =>
      if fg then "38;5;" ++ toString i else "48;5;" ++ toString i
  | Color.rgb r g b =>
      if fg then "38;2;" ++ toString r ++ ";" ++ toString g ++ ";" ++ toString b
      else "48;2;" ++ toString r ++ ";" ++ toString g ++ ";" ++ toString b

/-- `cell_to_ansi` (src lines 17-53): collect attribute codes in the fixed
order bold, dim, italic, underline, inverse, then always one foreground and
one background code; join with `;` and wrap in `ESC[...m`. The empty-codes
reset branch of the source is kept although it is unreachable. -/
def cell_to_ansi (cell : Cell) : String :=
  let codes : List String :=
    (if cell.bold then ["1"] else []) ++
    (if cell.dim then ["2"] else []) ++
    (if cell.italic then ["3"] else []) ++
    (if cell.underline then ["4"] else []) ++
    (if cell.inverse then ["7"] else []) ++
    [color_to_ansi_code cell.fgcolor true] ++
    [color_to_ansi_code cell.bgcolor false]
  if codes.isEmpty then "\x1b[0m"
  else "\x1b[" ++ String.intercalate ";" codes ++ "m"

/-- The virtual screen held by the vt100 parser, read-only here: a fixed
size and the `screen.cell(row, col)` lookup, which the vt100 crate returns
as an optional cell. -/
structure Grid where
  rows : Nat
  cols : Nat
  cell : Nat → Nat → Option Cell

/-- `is_row_non_empty` (src lines 122-134): true iff some cell in the row
has non-empty contents that are not a single blank space. -/
def is_row_non_empty (g : Grid) (row : Nat) : Bool :=
  (List.range g.cols).any (fun col =>
    match g.cell row col with
    | some cell => !cell.contents.isEmpty && !(cell.contents == " ")
    | none => false)

/-- The descending row scan of `get_used_height` (src lines 112-117):
`used_height_scan g n` examines rows `n-1, n-2, ..., 0` in that order —
exactly `for row in (0..n).rev()` — returning `(row + 1).min(rows)` at the
first non-empty row, and the floor value 1 if none is found. -/
def used_height_scan (g : Grid) : Nat → Nat
  | 0 => 1
  | r + 1 =>
      if is_row_non_empty g r then min (r + 1) g.rows
      else used_height_scan g r

/-- `get_used_height` (src lines 107-120): scan all rows from the bottom. -/
def get_used_height (g : Grid) : Nat :=
  used_height_scan g g.rows

/-- `render_rows` as computed in `render` (src line 165):
`rows.min(dynamic_height)`. -/
def render_rows (g : Grid) : Nat :=
  min g.rows (get_used_height g)

/-- One frame row (src lines 168-179): per column, the cell's ANSI prefix
then its contents, or a single space when the cell has no contents; absent
cells contribute nothing; a newline ends the row. -/
def frameRow (g : Grid) (row : Nat) : String :=
  String.join ((List.range g.cols).map (fun col =>
    match g.cell row col with
    | some cell =>
        cell_to_ansi cell ++ (if cell.contents.isEmpty then " " else cell.contents)
    | none => "")) ++ "\n"

/-- The frame text (src lines 167-180): rows `0..n` concatenated. -/
def buildFrame (g : Grid) (n : Nat) : String :=
  String.join ((List.range n).map (fun row => frameRow g row))

/-- Result of the one `reader.read` call per `render` (src line 140):
`ok bytes` for `Ok(n)` with the `n` bytes read (`ok []` is the EOF case
`Ok(0)`), `err` for a read error. -/
inductive ReadResult where
  | ok (bytes : List Nat)
  | err (e : String)

/-- Host-terminal effects issued by `render`, in order: the crossterm
cursor commands, the `print!` of the frame, and the flush. -/
inductive TermCmd where
  | savePosition
  | moveTo (col row : Nat)
  | print (s : String)
  | restorePosition
  | flush
deriving DecidableEq, Repr

/-- Observable outcome of one `render` call: the parser grid afterwards,
the host-terminal command sequence, the stderr lines, and whether the call
returned `Ok(())`. -/
structure RenderOut where
  grid : Grid
  cmds : List TermCmd
  stderr : List String
  ok : Bool

/-- `VirtualTerminal::render` (src lines 136-194). The vt100
`parser.process` step is the abstract grid transformer `process`. On
`Ok(0)` (EOF) it returns immediately with no effects; on `Ok(n)`, n > 0, it
processes the bytes, computes `dynamic_height = get_used_height`, saves the
cursor, moves to `(0, terminal_height - dynamic_height - 1)` (saturating),
prints the frame of `render_rows` rows, restores the cursor and flushes; on
a read error it prints `Read error: ...` to stderr and still returns
`Ok(())`. -/
def render (process : Grid → List Nat → Grid) (g : Grid)
    (terminal_height : Nat) (r : ReadResult) : RenderOut :=
  match r with
  | ReadResult.ok [] => { grid := g, cmds := [], stderr := [], ok := true }
  | ReadResult.ok bytes =>
      let g2 := process g bytes
      let dynamic_height := get_used_height g2
      let start_row := terminal_height - dynamic_height - 1
      let frame := buildFrame g2 (render_rows g2)
      { grid := g2,
        cmds := [TermCmd.savePosition, TermCmd.moveTo 0 start_row,
                 TermCmd.print frame, TermCmd.restorePosition, TermCmd.flush],
        stderr := [],
        ok := true }
  | ReadResult.err e =>
      { grid := g, cmds := [], stderr := ["Read error: " ++ e], ok := true }

/-- The row of the first cursor `moveTo` in a command sequence, if any. -/
def movedToRow : List TermCmd → Option Nat
  | [] => none
  | TermCmd.moveTo _ row :: _ => some row
  | _ :: rest => movedToRow rest

/-- State carried across driver-loop iterations: the parser grid, and
whether the child process has exited. The source stores the child handle in
the deliberately unused field `_child` (src line 14) and no code path ever
queries it. -/
structure LoopState where
  grid : Grid
  childExited : Bool

/-- What one iteration of `main`'s loop does next. -/
inductive LoopOutcome where
  | next (s : LoopState)
  | exitFailure
  | exitSuccess

/-- One iteration of `main`'s driver loop (src lines 209-213):
`vt.render()?` then sleep. An `Err` from render propagates via `?` as the
program's failure exit; otherwise the loop continues. No branch inspects
the child or breaks the loop. -/
def mainLoopStep (process : Grid → List Nat → Grid) (terminal_height : Nat)
    (s : LoopState) (r : ReadResult) : LoopOutcome :=
  let out := render process s.grid terminal_height r
  if out.ok then LoopOutcome.next { s with grid := out.grid }
  else LoopOutcome.exitFailure

/-- The command `main` builds and hands to `VirtualTerminal::spawn`
(src line 198): `CommandBuilder::new("/home/florian/dev/square/target/debug/square")`
with no arguments added; the process argv is never read. -/
def mainCommand (_argv : List String) : List String :=
  ["/home/florian/dev/square/target/debug/square"]

/-- `VirtualTerminal::spawn` (src lines 82-105) passes its command argument
unchanged to `spawn_command` (src line 95). -/
def spawnedChildCommand (command : List String) : List String :=
  command

/-- The command actually spawned into the pty for a given argv: `main`
composed with `spawn`. -/
def childCommandOf (argv : List String) : List String :=
  spawnedChildCommand (mainCommand argv)

/-- A cell holding a single blank space, default colors, no flags. -/
def blankCell : Cell :=
  { bold := false, dim := false, italic := false, underline := false,
    inverse := false, fgcolor := Color.default, bgcolor := Color.default,
    contents := " " }

/-- A cell holding the glyph `a`, default colors, no flags. -/
def letterCell : Cell :=
  { bold := false, dim := false, italic := false, underline := false,
    inverse := false, fgcolor := Color.default, bgcolor := Color.default,
    contents := "a" }

/-- A 3x2 grid of blank cells. -/
def blankGrid : Grid :=
  { rows := 3, cols := 2,
    cell := fun r c => if r < 3 && c < 2 then some blankCell else none }

/-- A 3x2 grid whose only visible glyph sits at row 1, column 0. -/
def demoGrid : Grid :=
  { rows := 3, cols := 2,
    cell := fun r c =>
      if r == 1 && c == 0 then some letterCell
      else if r < 3 && c < 2 then some blankCell else none }

/-- The cell of claim C3: foreground RGB (10,20,30), background default,
no flags. -/
def truecolorCell : Cell :=
  { bold := false, dim := false, italic := false, underline := false,
    inverse := false, fgcolor := Color.rgb 10 20 30, bgcolor := Color.default,
    contents := "x" }

-- ## Helper lemmas

theorem used_height_scan_le (g : Grid) (h1 : 1 ≤ g.rows) :
    ∀ n, used_height_scan g n ≤ g.rows := by
  intro n
  induction n with
  | zero => simpa [used_height_scan] using h1
  | succ m ih =>
      simp only [used_height_scan]
      split
      · exact Nat.min_le_right _ _
      · exact ih

theorem get_used_height_le (g : Grid) (h1 : 1 ≤ g.rows) :
    get_used_height g ≤ g.rows :=
  used_height_scan_le g h1 g.rows

theorem used_height_scan_finds (g : Grid) (k : Nat)
    (hvis : is_row_non_empty g k = true) :
    ∀ n, k < n →
      (∀ j, k < j → j < n → is_row_non_empty g j = false) →
      used_height_scan g n = min (k + 1) g.rows := by
  intro n
  induction n with
  | zero => intro h; omega
  | succ m ih =>
      intro hkm hblank
      by_cases hk : k = m
      · subst hk
        simp [used_height_scan, hvis]
      · have hkm2 : k < m := by omega
        have hm : is_row_non_empty g m = false :=
          hblank m hkm2 (Nat.lt_succ_self m)
        simp only [used_height_scan, hm, Bool.false_eq_true, if_false]
        exact ih hkm2 (fun j h1 h2 => hblank j h1 (by omega))

theorem used_height_scan_blank (g : Grid)
    (hblank : ∀ j, j < g.rows → is_row_non_empty g j = false) :
    ∀ n, n ≤ g.rows → used_height_scan g n = 1 := by
  intro n
  induction n with
  | zero => intro _; rfl
  | succ m ih =>
      intro h
      have hm : is_row_non_empty g m = false := hblank m (by omega)
      simp only [used_height_scan, hm, Bool.false_eq_true, if_false]
      exact ih (by omega)

-- ## Claims

/-- Claim C1 (code bug evidence): the driver loop in `main` never polls the
child and never exits successfully. First conjunct: no iteration outcome is
`exitSuccess`, for any process step, terminal height, loop state, or read
result — the loop has no success exit at all, contradicting "the loop exits
and the process returns success". Second conjunct: at the failing input —
child already exited, reader at EOF — the loop continues with unchanged
state instead of terminating. -/
theorem mainLoop_ignores_child_exit :
    (∀ (process : Grid → List Nat → Grid) (th : Nat) (s : LoopState)
        (r : ReadResult), mainLoopStep process th s r ≠ LoopOutcome.exitSuccess) ∧
    (∀ (process : Grid → List Nat → Grid) (th : Nat) (g : Grid),
        mainLoopStep process th { grid := g, childExited := true }
          (ReadResult.ok [])
          = LoopOutcome.next { grid := g, childExited := true }) := by
  constructor
  · intro process th s r
    by_cases h : (render process s.grid th r).ok = true <;>
      simp [mainLoopStep, h]
  · intro process th g
    rfl

/-- Claim C2 (code bug evidence): for every argv, the command spawned into
the pty is the fixed path `/home/florian/dev/square/target/debug/square`;
in particular for the invocation `tool echo hello` the spawned command is
not `echo hello`. -/
theorem main_spawns_fixed_command :
    (∀ argv : List String,
        childCommandOf argv = ["/home/florian/dev/square/target/debug/square"]) ∧
    childCommandOf ["echo", "hello"] ≠ ["echo", "hello"] := by
  exact ⟨fun _ => rfl, by decide⟩

/-- Claim C3 counterexample: the cell with foreground RGB (10,20,30),
background default and no flags does not encode to `ESC[38;2;10;20;30;39m`
— the default-background code the encoder always appends is `49`. -/
theorem truecolor_claim_counterexample :
    cell_to_ansi truecolorCell ≠ "\x1b[38;2;10;20;30;39m" := by
  decide

/-- Claim C3 (amended): for a Cell with foreground true-color RGB
(10,20,30), background default, and no style flags set, `cell_to_ansi`
yields exactly `ESC[38;2;10;20;30;49m` (49, the default-background code),
with no attribute codes — for any glyph contents. -/
theorem truecolor_encode_amended (contents : String) :
    cell_to_ansi
      { bold := false, dim := false, italic := false, underline := false,
        inverse := false, fgcolor := Color.rgb 10 20 30,
        bgcolor := Color.default, contents := contents }
      = "\x1b[38;2;10;20;30;49m" := by
  rfl

/-- Claim C4: for a Cell with bold, underline and inverse set (dim and
italic unset), foreground indexed color 3, background default,
`cell_to_ansi` yields exactly `ESC[1;4;7;38;5;3;49m`: flags in the fixed
order bold, dim, italic, underline, inverse, then one foreground code, then
one background code — for any glyph contents. -/
theorem attribute_order_encode (contents : String) :
    cell_to_ansi
      { bold := true, dim := false, italic := false, underline := true,
        inverse := true, fgcolor := Color.idx 3,
        bgcolor := Color.default, contents := contents }
      = "\x1b[1;4;7;38;5;3;49m" := by
  rfl

/-- Claim C5: for every grid in which row k (0-indexed) has visible content
and every row strictly below k is blank, `get_used_height` returns exactly
k + 1. -/
theorem used_height_correct (g : Grid) (k : Nat) (hk : k < g.rows)
    (hvis : is_row_non_empty g k = true)
    (hblank : ∀ j, k < j → j < g.rows → is_row_non_empty g j = false) :
    get_used_height g = k + 1 := by
  have h := used_height_scan_finds g k hvis g.rows hk hblank
  have hmin : min (k + 1) g.rows = k + 1 := Nat.min_eq_left (by omega)
  rw [get_used_height, h, hmin]

/-- Claim C5 witness: `demoGrid` has its only glyph in row 1 of 3, and
`get_used_height` returns 2. -/
theorem used_height_correct_witness :
    (1 < demoGrid.rows ∧ is_row_non_empty demoGrid 1 = true ∧
      (∀ j, 1 < j → j < demoGrid.rows → is_row_non_empty demoGrid j = false)) ∧
    get_used_height demoGrid = 2 := by
  refine ⟨⟨by decide, by decide, ?_⟩, ?_⟩
  · intro j h1 h2
    have h3 : j < 3 := h2
    interval_cases j
    decide
  · exact used_height_correct demoGrid 1 (by decide) (by decide)
      (fun j h1 h2 => by
        have h3 : j < 3 := h2
        interval_cases j
        decide)

/-- Claim C6: for every all-blank grid with at least one row,
`get_used_height` returns the floor value 1. -/
theorem used_height_blank_floor (g : Grid) (_hR : 1 ≤ g.rows)
    (hblank : ∀ j, j < g.rows → is_row_non_empty g j = false) :
    get_used_height g = 1 := by
  rw [get_used_height]
  exact used_height_scan_blank g hblank g.rows le_rfl

/-- Claim C6 witness: the all-blank 3-row `blankGrid` has used height 1. -/
theorem used_height_blank_floor_witness :
    (1 ≤ blankGrid.rows ∧
      (∀ j, j < blankGrid.rows → is_row_non_empty blankGrid j = false)) ∧
    get_used_height blankGrid = 1 := by
  refine ⟨⟨by decide, ?_⟩, ?_⟩
  · intro j hj
    have h3 : j < 3 := hj
    interval_cases j <;> decide
  · exact used_height_blank_floor blankGrid (by decide)
      (fun j hj => by
        have h3 : j < 3 := hj
        interval_cases j <;> decide)

/-- Claim C7: in the bottom-anchored render, for every terminal height and
every grid state (with at least one row, as the data model fixes rows to be
positive) reached after processing a non-empty read, the row the cursor is
moved to before the frame is printed equals
`terminal_height - render_rows - 1` with saturating subtraction, where
`render_rows = min rows (get_used_height ...)`. -/
theorem bottom_anchor_start_row (process : Grid → List Nat → Grid)
    (g : Grid) (terminal_height : Nat) (b : Nat) (bs : List Nat)
    (hrows : 1 ≤ (process g (b :: bs)).rows) :
    movedToRow (render process g terminal_height (ReadResult.ok (b :: bs))).cmds
      = some (terminal_height - render_rows (process g (b :: bs)) - 1) := by
  have hle : get_used_height (process g (b :: bs)) ≤ (process g (b :: bs)).rows :=
    get_used_height_le _ hrows
  have hmin : render_rows (process g (b :: bs))
      = get_used_height (process g (b :: bs)) := by
    rw [render_rows]
    exact Nat.min_eq_right hle
  rw [hmin]
  rfl

/-- Claim C7 witness: for the identity process step on `demoGrid` (3 rows,
used height 2) and terminal height 10, the cursor is moved to row
`10 - min 3 2 - 1 = 7`. -/
theorem bottom_anchor_start_row_witness :
    1 ≤ demoGrid.rows ∧
    movedToRow (render (fun g _ => g) demoGrid 10 (ReadResult.ok [104])).cmds
      = some (10 - render_rows demoGrid - 1) :=
  ⟨by decide, bottom_anchor_start_row (fun g _ => g) demoGrid 10 104 [] (by decide)⟩

/-- Claim C8: for every grid, the number of rendered rows `render_rows`
never exceeds the grid's total row count, whatever `get_used_height`
returns. -/
theorem render_rows_clamp (g : Grid) : render_rows g ≤ g.rows :=
  Nat.min_le_left _ _

/-- Claim C9: a zero-byte read (EOF) leaves the grid unchanged, issues no
host-terminal command, logs nothing, and returns success — for every
process step, grid, and terminal height. -/
theorem render_eof_noop (process : Grid → List Nat → Grid) (g : Grid)
    (terminal_height : Nat) :
    render process g terminal_height (ReadResult.ok [])
      = { grid := g, cmds := [], stderr := [], ok := true } :=
  rfl

/-- Claim C10: a failed read is non-fatal: the error is logged to stderr as
`Read error: ...`, no host-terminal command is issued, the grid is
unchanged, and render still returns success — for every process step, grid,
terminal height and error message. -/
theorem render_read_error_nonfatal (process : Grid → List Nat → Grid)
    (g : Grid) (terminal_height : Nat) (e : String) :
    render process g terminal_height (ReadResult.err e)
      = { grid := g, cmds := [], stderr := ["Read error: " ++ e], ok := true } :=
  rfl
